import Mathlib

/-!
Shallow embedding of the electro-puppeteer-mcp server core (src/index.ts,
current revision): the session registry (open/close/navigate), the
cross-context fetch bridge (browserOperations.fetchRequest and the
page.evaluate callback, including its atob/btoa base64 loops), the
fetchSession HTTP route handler, the status route, and the quit
(shutdown) handler modelled as an event trace.

External effects (pie.connect, pie.getPage, window.loadURL, the remote
environment's fetch) are modelled as oracle values carried in explicit
environment records; a thrown JS exception is an Except.error carrying
the stringified error.  randomUUID is modelled as a fresh-identifier
supply (the nextId counter), UUID collision-freeness being the
environmental assumption behind it.
-/

/-- A JSON-ish JavaScript value, as a field of a parsed request body can hold.
jundef models a missing field (undefined). -/
inductive JsonValue where
  | jundef
  | jnull
  | jbool (b : Bool)
  | jnum (n : Int)
  | jstr (s : String)
deriving DecidableEq, Repr

/-- JavaScript truthiness: undefined, null, false, 0 and the empty string are falsy. -/
def JsonValue.falsy : JsonValue → Bool
  | .jundef => true
  | .jnull => true
  | .jbool b => !b
  | .jnum n => n == 0
  | .jstr s => s == ""

/-- The JavaScript test typeof v === 'string'. -/
def JsonValue.isStringVal : JsonValue → Bool
  | .jstr _ => true
  | _ => false

/-- One live session record: the BrowserWindow's isDestroyed() flag and the
puppeteer page's current URL as page.url() reports it. -/
structure Session where
  destroyed : Bool
  currentUrl : String
deriving DecidableEq, Repr

/-- The module-level mutable state of src/index.ts: the sessions Map (as an
insertion-ordered association list, mirroring JS Map iteration order), whether
globalBrowser is non-null, whether httpServer is non-null, and the fresh-id
counter standing in for randomUUID. -/
structure ServerState where
  sessions : List (Nat × Session)
  globalBrowser : Bool
  httpServer : Bool
  nextId : Nat
deriving DecidableEq, Repr

/-- Map.get: first (and, for a JS Map, only) entry with the given key. -/
def mapGet : List (Nat × Session) → Nat → Option Session
  | [], _ => none
  | (k, v) :: rest, id => if k = id then some v else mapGet rest id

/-- Map.set: replace the entry in place when the key is present, else append. -/
def mapSet : List (Nat × Session) → Nat → Session → List (Nat × Session)
  | [], k, v => [(k, v)]
  | (k', w) :: rest, k, v =>
      if k' = k then (k, v) :: rest else (k', w) :: mapSet rest k v

/-- Map.delete: remove the entry with the given key. -/
def mapDelete : List (Nat × Session) → Nat → List (Nat × Session)
  | [], _ => []
  | (k', w) :: rest, k => if k' = k then rest else (k', w) :: mapDelete rest k

/-- resolveSession from src/index.ts: sessions.get(id) or null. -/
def resolveSession (st : ServerState) (id : Nat) : Option Session :=
  mapGet st.sessions id

/-- Result shape of browserOperations.open. -/
structure OpenResult where
  success : Bool
  message : String
  id : Option Nat := none
deriving DecidableEq, Repr

/-- Result shape of browserOperations.close. -/
structure CloseResult where
  success : Bool
  message : String
deriving DecidableEq, Repr

/-- Result shape of browserOperations.navigate. -/
structure NavResult where
  success : Bool
  message : String
  currentUrl : Option String := none
deriving DecidableEq, Repr

/-- Oracle outcomes of the external calls made by open: pie.connect (throws, or
returns a handle, true meaning non-null), pie.getPage (may throw), and
window.loadURL for the initial navigation (throws, or completes with the URL
page.url() would then observe). -/
structure OpenEnv where
  connectResult : Except String Bool
  getPageResult : Except String Unit
  loadResult : Except String String

/-- browserOperations.open: ensure the shared pie connection, allocate a window
and page, generate an id, register the session, and only then perform the
optional initial navigation; any throw is caught and mapped to a failure
result.  The session registered before a failing initial navigation is not
rolled back. -/
def openOp (st : ServerState) (initialUrl : Option String) (env : OpenEnv) :
    OpenResult × ServerState :=
  match (if st.globalBrowser then Except.ok true else env.connectResult) with
  | .error e => ({ success := false, message := "Failed to open browser: " ++ e }, st)
  | .ok nonNull =>
    let st1 : ServerState := { st with globalBrowser := st.globalBrowser || nonNull }
    if !st1.globalBrowser then
      ({ success := false, message := "Failed to initialize browser" }, st1)
    else
      match env.getPageResult with
      | .error e => ({ success := false, message := "Failed to open browser: " ++ e }, st1)
      | .ok _ =>
        let id := st1.nextId
        let st2 : ServerState :=
          { st1 with
            sessions := mapSet st1.sessions id { destroyed := false, currentUrl := "" }
            nextId := id + 1 }
        match initialUrl with
        | none =>
          ({ success := true, message := "Browser session opened successfully", id := some id },
           st2)
        | some _ =>
          match env.loadResult with
          | .ok obs =>
            ({ success := true, message := "Browser session opened successfully", id := some id },
             { st2 with
               sessions := mapSet st2.sessions id { destroyed := false, currentUrl := obs } })
          | .error e =>
            ({ success := false, message := "Failed to open browser: " ++ e }, st2)

/-- browserOperations.close: resolve the session; when present, call
window.close() unless the window is already destroyed, then delete the id from
the sessions map unconditionally.  The extra Bool records whether a graceful
window.close() call was actually issued. -/
def closeOp (st : ServerState) (id : Nat) : (CloseResult × Bool) × ServerState :=
  match resolveSession st id with
  | none => (({ success := false, message := "Session not found" }, false), st)
  | some s =>
    (({ success := true, message := "Browser session closed successfully" }, !s.destroyed),
     { st with sessions := mapDelete st.sessions id })

/-- Oracle outcome of window.loadURL inside navigate: throws, or completes with
the URL that page.url() observes afterwards (redirects included). -/
structure NavEnv where
  loadResult : Except String String

/-- browserOperations.navigate: resolve the session, loadURL, then report the
observed page.url() as currentUrl. -/
def navigateOp (st : ServerState) (id : Nat) (url : String) (env : NavEnv) :
    NavResult × ServerState :=
  match resolveSession st id with
  | none => ({ success := false, message := "Session not found" }, st)
  | some s =>
    match env.loadResult with
    | .error e => ({ success := false, message := "Failed to navigate: " ++ e }, st)
    | .ok obs =>
      ({ success := true, message := "Navigated to " ++ url, currentUrl := some obs },
       { st with
         sessions := mapSet st.sessions id { destroyed := s.destroyed, currentUrl := obs } })

/-- The SerializedFetchRequest shape of src/index.ts.  url is kept as a raw
JSON value because the route handler receives arbitrary JSON there and the
code tests it with JS truthiness and typeof. -/
structure SerializedFetchRequest where
  url : JsonValue := .jundef
  method : Option String := none
  headers : Option (List (String × String)) := none
  body : Option String := none
  bodyEncoding : Option String := none
  redirect : Option String := none
  credentials : Option String := none
  cache : Option String := none
  mode : Option String := none
  referrer : Option String := none
  referrerPolicy : Option String := none
  integrity : Option String := none
  keepalive : Option Bool := none
deriving DecidableEq, Repr

/-- The SerializedFetchResponse shape of src/index.ts. -/
structure SerializedFetchResponse where
  ok : Bool
  status : Nat
  statusText : String
  url : String
  redirected : Bool
  type : String
  headers : List (String × String)
  bodyBase64 : String
deriving DecidableEq, Repr

/-- The WHATWG base64 alphabet used by the environment's btoa and atob. -/
def base64Alphabet : List Char :=
  ['A', 'B', 'C', 'D', 'E', 'F', 'G', 'H', 'I', 'J', 'K', 'L', 'M',
   'N', 'O', 'P', 'Q', 'R', 'S', 'T', 'U', 'V', 'W', 'X', 'Y', 'Z',
   'a', 'b', 'c', 'd', 'e', 'f', 'g', 'h', 'i', 'j', 'k', 'l', 'm',
   'n', 'o', 'p', 'q', 'r', 's', 't', 'u', 'v', 'w', 'x', 'y', 'z',
   '0', '1', '2', '3', '4', '5', '6', '7', '8', '9', '+', '/']

/-- The base64 digit for a 6-bit value. -/
def sixToChar (n : Nat) : Char := base64Alphabet.getD n 'A'

/-- The 6-bit value of a base64 digit. -/
def charToSix (c : Char) : Nat := base64Alphabet.indexOf c

/-- Models the encode side of the bridge callback: the fromCharCode loop builds
a binary string from the response bytes and w.btoa base64-encodes it.  Bytes
are consumed three at a time; a final group of one or two bytes is padded
with padding characters. -/
def btoaOfBytes : List Nat → List Char
  | [] => []
  | [a] =>
      [sixToChar (a / 4), sixToChar (a % 4 * 16), '=', '=']
  | [a, b] =>
      [sixToChar (a / 4), sixToChar (a % 4 * 16 + b / 16), sixToChar (b % 16 * 4), '=']
  | a :: b :: c :: rest =>
      sixToChar (a / 4) :: sixToChar (a % 4 * 16 + b / 16) ::
      sixToChar (b % 16 * 4 + c / 64) :: sixToChar (c % 64) :: btoaOfBytes rest

/-- Models the decode side of the bridge callback: w.atob decodes the base64
text to a binary string and the charCodeAt loop turns it into bytes.  Defined
on four-character groups with trailing padding, which is exactly the image of
btoaOfBytes; other inputs (where real atob would throw) decode best-effort. -/
def atobBytes : List Char → List Nat
  | c1 :: c2 :: c3 :: c4 :: rest =>
      if c3 = '=' then
        [charToSix c1 * 4 + charToSix c2 / 16]
      else if c4 = '=' then
        [charToSix c1 * 4 + charToSix c2 / 16,
         charToSix c2 % 16 * 16 + charToSix c3 / 4]
      else
        (charToSix c1 * 4 + charToSix c2 / 16) ::
        (charToSix c2 % 16 * 16 + charToSix c3 / 4) ::
        (charToSix c3 % 4 * 64 + charToSix c4) :: atobBytes rest
  | _ => []

/-- The bodyEncoding value that selects the base64 decode path. -/
def base64Lit : String := "base64"

/-- The request body the evaluate callback attaches to the outbound w.fetch:
absent, raw bytes (base64 path), or the literal string (utf8 path). -/
inductive AttachedBody where
  | absent
  | bytes (bs : List Nat)
  | text (s : String)
deriving DecidableEq, Repr

/-- The body-preparation step of the evaluate callback: when a body is present
and bodyEncoding is base64, run the atob/charCodeAt loop; otherwise pass the
string through unchanged. -/
def decodeRequestBody (serialized : SerializedFetchRequest) : AttachedBody :=
  match serialized.body with
  | none => .absent
  | some b =>
    if serialized.bodyEncoding = some base64Lit then .bytes (atobBytes b.toList)
    else .text b

/-- What the in-environment w.fetch call produced, as the evaluate callback
observes it: response metadata, the flattened header mapping and the raw
arrayBuffer bytes. -/
structure RemoteFetchOutcome where
  ok : Bool
  status : Nat
  statusText : String
  url : String
  redirected : Bool
  type : String
  headers : List (String × String)
  bodyBytes : List Nat
deriving DecidableEq, Repr

/-- The tail of the evaluate callback: package the observed response, with the
body bytes re-encoded through the fromCharCode/btoa loop into bodyBase64. -/
def evaluateFetchCallback (_serialized : SerializedFetchRequest)
    (outcome : RemoteFetchOutcome) : SerializedFetchResponse :=
  { ok := outcome.ok
    status := outcome.status
    statusText := outcome.statusText
    url := outcome.url
    redirected := outcome.redirected
    type := outcome.type
    headers := outcome.headers
    bodyBase64 := String.mk (btoaOfBytes outcome.bodyBytes) }

/-- Oracle outcome of page.evaluate: the whole remote execution either throws
(network error, CORS rejection, abort, bad base64) or yields the observed
fetch outcome consumed by the callback tail. -/
structure FetchEnv where
  evalOutcome : Except String RemoteFetchOutcome

/-- The 404-shaped Fetch Result fetchRequest returns for an unknown session. -/
def notFoundFetchResponse : SerializedFetchResponse :=
  { ok := false, status := 404, statusText := "Session not found", url := ""
    redirected := false, type := "basic", headers := [], bodyBase64 := "" }

/-- The 400-shaped Fetch Result fetchRequest returns for a missing url. -/
def badRequestFetchResponse : SerializedFetchResponse :=
  { ok := false, status := 400, statusText := "Request url is required", url := ""
    redirected := false, type := "basic", headers := [], bodyBase64 := "" }

/-- The 500-shaped Fetch Result fetchRequest returns when the in-environment
execution throws. -/
def rendererFailedResponse (e : String) : SerializedFetchResponse :=
  { ok := false, status := 500, statusText := "Renderer fetch failed: " ++ e, url := ""
    redirected := false, type := "basic", headers := [], bodyBase64 := "" }

/-- browserOperations.fetchRequest: resolve the session (404 result when
absent), test the request and its url for JS truthiness (400 result when
falsy), then run page.evaluate, mapping a throw to the synthetic 500 result.
Every path returns a SerializedFetchResponse and leaves the state untouched. -/
def fetchRequest (st : ServerState) (id : Nat) (request : Option SerializedFetchRequest)
    (env : FetchEnv) : SerializedFetchResponse × ServerState :=
  match resolveSession st id with
  | none => (notFoundFetchResponse, st)
  | some _ =>
    match request with
    | none => (badRequestFetchResponse, st)
    | some r =>
      if r.url.falsy then (badRequestFetchResponse, st)
      else
        match env.evalOutcome with
        | .ok outcome => (evaluateFetchCallback r outcome, st)
        | .error e => (rendererFailedResponse e, st)

/-- Body of an HTTP response from the fetchSession route: either an error JSON
with success and message fields, or the translated bridge result. -/
inductive FetchRouteBody where
  | errorBody (success : Bool) (message : String)
  | resultBody (r : SerializedFetchResponse)
deriving DecidableEq, Repr

/-- An HTTP response from the fetchSession route. -/
structure FetchRouteResponse where
  httpStatus : Nat
  body : FetchRouteBody
deriving DecidableEq, Repr

/-- routeHandlers.fetchSession: 404 when the session is unknown; destructure
req.body (defaulting to an empty object), 400 unless url is a truthy string;
otherwise call the bridge and return its result with HTTP status 200. -/
def fetchSession (st : ServerState) (id : Nat) (reqBody : Option SerializedFetchRequest)
    (env : FetchEnv) : FetchRouteResponse × ServerState :=
  match resolveSession st id with
  | none => ({ httpStatus := 404, body := .errorBody false ("Session not found") }, st)
  | some _ =>
    let fields := reqBody.getD ({})
    if fields.url.falsy || !fields.url.isStringVal then
      ({ httpStatus := 400, body := .errorBody false ("Request body must include url") }, st)
    else
      let out := fetchRequest st id (some fields) env
      ({ httpStatus := 200, body := .resultBody out.1 }, out.2)

/-- The memoryUsage block of the status payload, passed through from the host. -/
structure MemoryUsage where
  rss : Nat
  heapTotal : Nat
  heapUsed : Nat
  external : Nat
deriving DecidableEq, Repr

/-- The status payload of routeHandlers.status. -/
structure StatusReport where
  uptime : Nat
  memoryUsage : MemoryUsage
  browserIsOpen : Bool
  sessionsActive : Nat
  timestamp : String
deriving DecidableEq, Repr

/-- routeHandlers.status: uptime, memory and timestamp come from the host
environment; browser.isOpen and sessions.active are computed from the
sessions map size. -/
def statusOp (st : ServerState) (uptime : Nat) (mem : MemoryUsage) (timestamp : String) :
    StatusReport :=
  { uptime := uptime
    memoryUsage := mem
    browserIsOpen := decide (0 < st.sessions.length)
    sessionsActive := st.sessions.length
    timestamp := timestamp }

/-- Events of the quit handler, in the order they are performed. -/
inductive QuitEvent where
  | ack
  | closeWindow (i : Nat)
  | clearSessions
  | releaseBrowser
  | serverCloseBegin
  | appQuit
  | scheduleExitTimer
  | processExit
deriving DecidableEq, Repr

/-- The window-closing loop of the quit handler over
BrowserWindow.getAllWindows(): one closeWindow event per window whose
isDestroyed() flag is false, in order. -/
def closeWindowEvents : Nat → List Bool → List QuitEvent
  | _, [] => []
  | i, true :: rest => closeWindowEvents (i + 1) rest
  | i, false :: rest => QuitEvent.closeWindow i :: closeWindowEvents (i + 1) rest

/-- routeHandlers.quit as an event trace.  ws lists the isDestroyed() flags of
all windows; browser and server say whether globalBrowser and httpServer are
non-null; closeCallbackFires says whether httpServer.close ever invokes its
callback; browserCloseThrows says whether globalBrowser.close() throws (the
handler swallows that error, so the trace does not depend on it).  The
response is sent before the setImmediate teardown, hence ack heads the trace;
app.quit and the 100ms exit timer are reached only inside the close callback
(or immediately when no server is listening). -/
def quitTrace (ws : List Bool) (browser server closeCallbackFires _browserCloseThrows : Bool) :
    List QuitEvent :=
  QuitEvent.ack ::
  (closeWindowEvents 0 ws ++
   QuitEvent.clearSessions ::
   ((if browser then [QuitEvent.releaseBrowser] else []) ++
    (if server then
       QuitEvent.serverCloseBegin ::
       (if closeCallbackFires then
          [QuitEvent.appQuit, QuitEvent.scheduleExitTimer, QuitEvent.processExit]
        else [])
     else [QuitEvent.appQuit, QuitEvent.scheduleExitTimer, QuitEvent.processExit])))

/-- A registry-mutating operation, for runs that only open and close sessions. -/
inductive RegistryOp where
  | openSession (initialUrl : Option String) (env : OpenEnv)
  | closeSession (id : Nat)

/-- Run a sequence of open/close operations against the server state. -/
def runOps (st : ServerState) : List RegistryOp → ServerState
  | [] => st
  | RegistryOp.openSession u env :: rest => runOps (openOp st u env).2 rest
  | RegistryOp.closeSession id :: rest => runOps (closeOp st id).2 rest

/-- Count the successful opens and successful closes along a run. -/
def successCount (st : ServerState) : List RegistryOp → Nat × Nat
  | [] => (0, 0)
  | RegistryOp.openSession u env :: rest =>
      let r := openOp st u env
      let p := successCount r.2 rest
      ((if r.1.success then 1 else 0) + p.1, p.2)
  | RegistryOp.closeSession id :: rest =>
      let r := closeOp st id
      let p := successCount r.2 rest
      (p.1, (if r.1.1.success then 1 else 0) + p.2)

/-- Whether every operation of the run reports success. -/
def allSucceed (st : ServerState) : List RegistryOp → Bool
  | [] => true
  | RegistryOp.openSession u env :: rest =>
      let r := openOp st u env
      r.1.success && allSucceed r.2 rest
  | RegistryOp.closeSession id :: rest =>
      let r := closeOp st id
      r.1.1.success && allSucceed r.2 rest

/-- The session ids handed out by successful opens along a run, in order. -/
def issuedIds (st : ServerState) : List RegistryOp → List Nat
  | [] => []
  | RegistryOp.openSession u env :: rest =>
      let r := openOp st u env
      (match r.1.id with | some i => [i] | none => []) ++ issuedIds r.2 rest
  | RegistryOp.closeSession id :: rest => issuedIds (closeOp st id).2 rest

/-- Registry well-formedness: session keys are pairwise distinct and below the
fresh-id counter. -/
def goodKeys (st : ServerState) : Prop :=
  (st.sessions.map Prod.fst).Nodup ∧ ∀ k ∈ st.sessions.map Prod.fst, k < st.nextId

/-- The module-level state right after initialization, before any request. -/
def initialState : ServerState :=
  { sessions := [], globalBrowser := false, httpServer := false, nextId := 0 }

/-! ### Association-list lemmas for the sessions map -/

theorem mapGet_mapSet_self : ∀ (m : List (Nat × Session)) (k : Nat) (v : Session),
    mapGet (mapSet m k v) k = some v
  | [], k, v => by simp [mapSet, mapGet]
  | (k', w) :: rest, k, v => by
      by_cases h : k' = k
      · subst h; simp [mapSet, mapGet]
      · simp [mapSet, mapGet, h, mapGet_mapSet_self rest k v]

theorem mapGet_mapSet_ne : ∀ (m : List (Nat × Session)) (k k2 : Nat) (v : Session),
    k ≠ k2 → mapGet (mapSet m k v) k2 = mapGet m k2
  | [], k, k2, v, h => by simp [mapSet, mapGet, h]
  | (k', w) :: rest, k, k2, v, h => by
      by_cases h2 : k' = k
      · subst h2; simp [mapSet, mapGet, h]
      · simp [mapSet, mapGet, h2, mapGet_mapSet_ne rest k k2 v h]

theorem mapGet_eq_none_iff : ∀ (m : List (Nat × Session)) (k : Nat),
    mapGet m k = none ↔ k ∉ m.map Prod.fst
  | [], k => by simp [mapGet]
  | (k', w) :: rest, k => by
      by_cases h : k' = k
      · subst h; simp [mapGet]
      · simp [mapGet, h, mapGet_eq_none_iff rest k, Ne.symm h]

theorem mapSet_keys_absent : ∀ (m : List (Nat × Session)) (k : Nat) (v : Session),
    mapGet m k = none → (mapSet m k v).map Prod.fst = m.map Prod.fst ++ [k]
  | [], k, v, _ => by simp [mapSet]
  | (k', w) :: rest, k, v, h => by
      by_cases h2 : k' = k
      · subst h2; simp [mapGet] at h
      · simp only [mapGet, if_neg h2] at h
        simp [mapSet, h2, mapSet_keys_absent rest k v h]

theorem mapSet_length_absent (m : List (Nat × Session)) (k : Nat) (v : Session)
    (h : mapGet m k = none) : (mapSet m k v).length = m.length + 1 := by
  have hk := mapSet_keys_absent m k v h
  have h1 : ((mapSet m k v).map Prod.fst).length = (m.map Prod.fst ++ [k]).length := by
    rw [hk]
  simpa using h1

theorem mapSet_length_present : ∀ (m : List (Nat × Session)) (k : Nat) (v s : Session),
    mapGet m k = some s → (mapSet m k v).length = m.length
  | [], k, v, s, h => by simp [mapGet] at h
  | (k', w) :: rest, k, v, s, h => by
      by_cases h2 : k' = k
      · subst h2; simp [mapSet]
      · simp only [mapGet, if_neg h2] at h
        simp [mapSet, h2, mapSet_length_present rest k v s h]

theorem mapGet_mapDelete_self : ∀ (m : List (Nat × Session)) (k : Nat),
    (m.map Prod.fst).Nodup → mapGet (mapDelete m k) k = none
  | [], k, _ => rfl
  | (k', w) :: rest, k, h => by
      have h' : k' ∉ rest.map Prod.fst ∧ (rest.map Prod.fst).Nodup := by
        simpa [List.nodup_cons] using h
      by_cases h2 : k' = k
      · subst h2
        simp only [mapDelete, if_pos rfl]
        exact (mapGet_eq_none_iff rest k').mpr h'.1
      · simp [mapDelete, mapGet, h2, mapGet_mapDelete_self rest k h'.2]

theorem mapGet_mapDelete_ne : ∀ (m : List (Nat × Session)) (k k2 : Nat),
    k ≠ k2 → mapGet (mapDelete m k) k2 = mapGet m k2
  | [], _, _, _ => rfl
  | (k', w) :: rest, k, k2, h => by
      by_cases h2 : k' = k
      · subst h2; simp [mapDelete, mapGet, h]
      · simp [mapDelete, mapGet, h2, mapGet_mapDelete_ne rest k k2 h]

theorem mapDelete_length : ∀ (m : List (Nat × Session)) (k : Nat) (s : Session),
    mapGet m k = some s → (mapDelete m k).length + 1 = m.length
  | [], k, s, h => by simp [mapGet] at h
  | (k', w) :: rest, k, s, h => by
      by_cases h2 : k' = k
      · subst h2; simp [mapDelete]
      · simp only [mapGet, if_neg h2] at h
        have := mapDelete_length rest k s h
        simp only [mapDelete, if_neg h2, List.length_cons]
        omega

theorem mapDelete_keys_subset : ∀ (m : List (Nat × Session)) (k k2 : Nat),
    k2 ∈ (mapDelete m k).map Prod.fst → k2 ∈ m.map Prod.fst
  | [], _, _, h => by simp [mapDelete] at h
  | (k', w) :: rest, k, k2, h => by
      by_cases h2 : k' = k
      · subst h2
        have h' : k2 ∈ rest.map Prod.fst := by simpa [mapDelete] using h
        simp [h']
      · simp only [mapDelete, if_neg h2, List.map_cons, List.mem_cons] at h
        rcases h with h | h
        · simp [h]
        · simp [mapDelete_keys_subset rest k k2 h]

theorem mapDelete_keys_nodup : ∀ (m : List (Nat × Session)) (k : Nat),
    (m.map Prod.fst).Nodup → ((mapDelete m k).map Prod.fst).Nodup
  | [], _, _ => by simp [mapDelete]
  | (k', w) :: rest, k, h => by
      have h' : k' ∉ rest.map Prod.fst ∧ (rest.map Prod.fst).Nodup := by
        simpa [List.nodup_cons] using h
      by_cases h2 : k' = k
      · subst h2; simpa [mapDelete] using h'.2
      · simp only [mapDelete, if_neg h2, List.map_cons, List.nodup_cons]
        exact ⟨fun hm => h'.1 (mapDelete_keys_subset rest k k' hm),
               mapDelete_keys_nodup rest k h'.2⟩

/-! ### Base64 lemmas for the bridge's atob/btoa loops -/

theorem charToSix_sixToChar_fin : ∀ s : Fin 64, charToSix (sixToChar s.val) = s.val := by
  decide

theorem charToSix_sixToChar {s : Nat} (h : s < 64) : charToSix (sixToChar s) = s :=
  charToSix_sixToChar_fin ⟨s, h⟩

theorem sixToChar_ne_pad_fin : ∀ s : Fin 64, sixToChar s.val ≠ '=' := by decide

theorem sixToChar_ne_pad {s : Nat} (h : s < 64) : sixToChar s ≠ '=' :=
  sixToChar_ne_pad_fin ⟨s, h⟩

/-- The charCodeAt/atob loop inverts the fromCharCode/btoa loop on every byte
sequence. -/
theorem atobBytes_btoaOfBytes : ∀ (B : List Nat), (∀ b ∈ B, b < 256) →
    atobBytes (btoaOfBytes B) = B
  | [], _ => rfl
  | [a], h => by
      have ha : a < 256 := h a (by simp)
      simp only [btoaOfBytes, atobBytes]
      rw [if_pos trivial,
          charToSix_sixToChar (show a / 4 < 64 by omega),
          charToSix_sixToChar (show a % 4 * 16 < 64 by omega)]
      simp only [List.cons.injEq, and_true]
      omega
  | [a, b], h => by
      have ha : a < 256 := h a (by simp)
      have hb : b < 256 := h b (by simp)
      simp only [btoaOfBytes, atobBytes]
      rw [if_neg (sixToChar_ne_pad (show b % 16 * 4 < 64 by omega)), if_pos trivial,
          charToSix_sixToChar (show a / 4 < 64 by omega),
          charToSix_sixToChar (show a % 4 * 16 + b / 16 < 64 by omega),
          charToSix_sixToChar (show b % 16 * 4 < 64 by omega)]
      simp only [List.cons.injEq, and_true]
      omega
  | a :: b :: c :: rest, h => by
      have ha : a < 256 := h a (by simp)
      have hb : b < 256 := h b (by simp)
      have hc : c < 256 := h c (by simp)
      have ih := atobBytes_btoaOfBytes rest (fun x hx => h x (by simp [hx]))
      simp only [btoaOfBytes, atobBytes]
      rw [if_neg (sixToChar_ne_pad (show b % 16 * 4 + c / 64 < 64 by omega)),
          if_neg (sixToChar_ne_pad (show c % 64 < 64 by omega)),
          charToSix_sixToChar (show a / 4 < 64 by omega),
          charToSix_sixToChar (show a % 4 * 16 + b / 16 < 64 by omega),
          charToSix_sixToChar (show b % 16 * 4 + c / 64 < 64 by omega),
          charToSix_sixToChar (show c % 64 < 64 by omega), ih]
      simp only [List.cons.injEq, and_true]
      omega

/-! ### Shape lemmas for the registry operations -/

theorem mapSet_mapSet : ∀ (m : List (Nat × Session)) (k : Nat) (v v2 : Session),
    mapSet (mapSet m k v) k v2 = mapSet m k v2
  | [], k, v, v2 => by simp [mapSet]
  | (k', w) :: rest, k, v, v2 => by
      by_cases h : k' = k
      · subst h; simp [mapSet]
      · simp [mapSet, h, mapSet_mapSet rest k v v2]

/-- Every openOp call falls in one of three shapes: failed before
registration (state untouched apart from the connection flag), failed after
registration (session registered, id withheld), or succeeded (session
registered, id returned). -/
theorem openOp_shape (st : ServerState) (u : Option String) (env : OpenEnv) :
    ((openOp st u env).2.sessions = st.sessions ∧ (openOp st u env).2.nextId = st.nextId
      ∧ (openOp st u env).1.success = false ∧ (openOp st u env).1.id = none)
    ∨ ((openOp st u env).2.sessions
          = mapSet st.sessions st.nextId { destroyed := false, currentUrl := "" }
        ∧ (openOp st u env).2.nextId = st.nextId + 1
        ∧ (openOp st u env).1.success = false ∧ (openOp st u env).1.id = none)
    ∨ (∃ v, (openOp st u env).2.sessions = mapSet st.sessions st.nextId v
        ∧ (openOp st u env).2.nextId = st.nextId + 1
        ∧ (openOp st u env).1.success = true
        ∧ (openOp st u env).1.id = some st.nextId) := by
  rcases hc : (if st.globalBrowser then Except.ok true else env.connectResult) with e | nonNull
  · left; simp [openOp, hc]
  · cases hgb : (st.globalBrowser || nonNull) with
    | false => left; simp [openOp, hc, hgb]
    | true =>
      rcases hgp : env.getPageResult with e | uu
      · left; simp [openOp, hc, hgb, hgp]
      · cases u with
        | none =>
          refine Or.inr (Or.inr ⟨{ destroyed := false, currentUrl := "" }, ?_, ?_, ?_, ?_⟩) <;>
            simp [openOp, hc, hgb, hgp]
        | some uu =>
          rcases hl : env.loadResult with e | obs
          · refine Or.inr (Or.inl ⟨?_, ?_, ?_, ?_⟩) <;> simp [openOp, hc, hgb, hgp, hl]
          · refine Or.inr (Or.inr ⟨{ destroyed := false, currentUrl := obs }, ?_, ?_, ?_, ?_⟩) <;>
              simp [openOp, hc, hgb, hgp, hl, mapSet_mapSet]

theorem openOp_preserves_goodKeys (st : ServerState) (u : Option String) (env : OpenEnv)
    (h : goodKeys st) : goodKeys (openOp st u env).2 := by
  have habs : mapGet st.sessions st.nextId = none :=
    (mapGet_eq_none_iff _ _).mpr (fun hm => absurd (h.2 _ hm) (Nat.lt_irrefl _))
  have hkeys := fun v => mapSet_keys_absent st.sessions st.nextId v habs
  rcases openOp_shape st u env with ⟨hs, hn, _, _⟩ | ⟨hs, hn, _, _⟩ | ⟨v, hs, hn, _, _⟩
  · exact ⟨by rw [hs]; exact h.1, by rw [hs, hn]; exact h.2⟩
  · constructor
    · rw [hs, hkeys]
      simp only [List.nodup_append, List.nodup_cons, List.not_mem_nil, not_false_iff,
        List.nodup_nil, and_true, true_and]
      exact ⟨h.1, by
        intro a ha
        simp only [List.mem_singleton]
        intro hEq
        exact absurd (h.2 a ha) (by rw [hEq]; exact Nat.lt_irrefl _)⟩
    · intro k hk
      rw [hs, hkeys] at hk
      rw [hn]
      rcases List.mem_append.mp hk with hk | hk
      · exact Nat.lt_succ_of_lt (h.2 k hk)
      · simp only [List.mem_singleton] at hk
        omega
  · constructor
    · rw [hs, hkeys]
      simp only [List.nodup_append, List.nodup_cons, List.not_mem_nil, not_false_iff,
        List.nodup_nil, and_true, true_and]
      exact ⟨h.1, by
        intro a ha
        simp only [List.mem_singleton]
        intro hEq
        exact absurd (h.2 a ha) (by rw [hEq]; exact Nat.lt_irrefl _)⟩
    · intro k hk
      rw [hs, hkeys] at hk
      rw [hn]
      rcases List.mem_append.mp hk with hk | hk
      · exact Nat.lt_succ_of_lt (h.2 k hk)
      · simp only [List.mem_singleton] at hk
        omega

theorem closeOp_state (st : ServerState) (id : Nat) :
    ((closeOp st id).2 = st ∧ (closeOp st id).1.1.success = false)
    ∨ (∃ s, resolveSession st id = some s
        ∧ (closeOp st id).2.sessions = mapDelete st.sessions id
        ∧ (closeOp st id).2.nextId = st.nextId
        ∧ (closeOp st id).1.1.success = true) := by
  rcases hres : resolveSession st id with _ | s
  · left; simp [closeOp, hres]
  · right; exact ⟨s, rfl, by simp [closeOp, hres], by simp [closeOp, hres],
      by simp [closeOp, hres]⟩

theorem closeOp_preserves_goodKeys (st : ServerState) (id : Nat) (h : goodKeys st) :
    goodKeys (closeOp st id).2 := by
  rcases closeOp_state st id with ⟨hst, _⟩ | ⟨s, _, hs, hn, _⟩
  · rw [hst]; exact h
  · exact ⟨by rw [hs]; exact mapDelete_keys_nodup _ _ h.1,
      by rw [hs, hn]; exact fun k hk => h.2 k (mapDelete_keys_subset _ _ _ hk)⟩

theorem openOp_success_length (st : ServerState) (u : Option String) (env : OpenEnv)
    (hg : goodKeys st) (hs : (openOp st u env).1.success = true) :
    (openOp st u env).2.sessions.length = st.sessions.length + 1 := by
  have habs : mapGet st.sessions st.nextId = none :=
    (mapGet_eq_none_iff _ _).mpr (fun hm => absurd (hg.2 _ hm) (Nat.lt_irrefl _))
  rcases openOp_shape st u env with ⟨_, _, hf, _⟩ | ⟨_, _, hf, _⟩ | ⟨v, hss, _, _, _⟩
  · rw [hf] at hs; cases hs
  · rw [hf] at hs; cases hs
  · rw [hss]; exact mapSet_length_absent _ _ _ habs

theorem closeOp_success_length (st : ServerState) (id : Nat)
    (hs : (closeOp st id).1.1.success = true) :
    (closeOp st id).2.sessions.length + 1 = st.sessions.length := by
  rcases closeOp_state st id with ⟨_, hf⟩ | ⟨s, hres, hss, _, _⟩
  · rw [hf] at hs; cases hs
  · rw [hss]; exact mapDelete_length _ _ _ hres

/-! ### Run invariants -/

theorem runOps_preserves_goodKeys : ∀ (ops : List RegistryOp) (st : ServerState),
    goodKeys st → goodKeys (runOps st ops)
  | [], _, h => h
  | RegistryOp.openSession u env :: rest, st, h =>
      runOps_preserves_goodKeys rest _ (openOp_preserves_goodKeys st u env h)
  | RegistryOp.closeSession id :: rest, st, h =>
      runOps_preserves_goodKeys rest _ (closeOp_preserves_goodKeys st id h)

/-- Along a run in which every operation succeeds, the registry size plus the
number of successful closes equals the starting size plus the number of
successful opens, and the registry stays well-formed. -/
theorem run_length_invariant : ∀ (ops : List RegistryOp) (st : ServerState),
    goodKeys st → allSucceed st ops = true →
    (runOps st ops).sessions.length + (successCount st ops).2
      = st.sessions.length + (successCount st ops).1
  | [], st, _, _ => by simp [runOps, successCount]
  | RegistryOp.openSession u env :: rest, st, hg, hall => by
      simp only [allSucceed, Bool.and_eq_true] at hall
      have hg' := openOp_preserves_goodKeys st u env hg
      have ih := run_length_invariant rest (openOp st u env).2 hg' hall.2
      have hlen := openOp_success_length st u env hg hall.1
      simp only [runOps, successCount, hall.1, if_true]
      omega
  | RegistryOp.closeSession id :: rest, st, hg, hall => by
      simp only [allSucceed, Bool.and_eq_true] at hall
      have hg' := closeOp_preserves_goodKeys st id hg
      have ih := run_length_invariant rest (closeOp st id).2 hg' hall.2
      have hlen := closeOp_success_length st id hall.1
      simp only [runOps, successCount, hall.1, if_true]
      omega

theorem openOp_nextId_le (st : ServerState) (u : Option String) (env : OpenEnv) :
    st.nextId ≤ (openOp st u env).2.nextId := by
  rcases openOp_shape st u env with ⟨_, hn, _, _⟩ | ⟨_, hn, _, _⟩ | ⟨v, _, hn, _, _⟩ <;>
    omega

theorem issuedIds_lower_bound : ∀ (ops : List RegistryOp) (st : ServerState),
    ∀ x ∈ issuedIds st ops, st.nextId ≤ x
  | [], _, x, hx => by simp [issuedIds] at hx
  | RegistryOp.openSession u env :: rest, st, x, hx => by
      simp only [issuedIds] at hx
      have hmono := openOp_nextId_le st u env
      rcases openOp_shape st u env with ⟨_, hn, _, hid⟩ | ⟨_, hn, _, hid⟩ | ⟨v, _, hn, _, hid⟩ <;>
        rw [hid] at hx
      · simp only [List.nil_append] at hx
        have := issuedIds_lower_bound rest _ x hx
        omega
      · simp only [List.nil_append] at hx
        have := issuedIds_lower_bound rest _ x hx
        omega
      · simp only [List.singleton_append, List.mem_cons] at hx
        rcases hx with hx | hx
        · omega
        · have := issuedIds_lower_bound rest _ x hx
          omega
  | RegistryOp.closeSession id :: rest, st, x, hx => by
      simp only [issuedIds] at hx
      have h2 : (closeOp st id).2.nextId = st.nextId := by
        rcases closeOp_state st id with ⟨hst, _⟩ | ⟨s, _, _, hn, _⟩
        · rw [hst]
        · exact hn
      have := issuedIds_lower_bound rest _ x hx
      omega

theorem issuedIds_nodup : ∀ (ops : List RegistryOp) (st : ServerState),
    (issuedIds st ops).Nodup
  | [], _ => List.nodup_nil
  | RegistryOp.openSession u env :: rest, st => by
      simp only [issuedIds]
      rcases openOp_shape st u env with ⟨_, hn, _, hid⟩ | ⟨_, hn, _, hid⟩ | ⟨v, _, hn, _, hid⟩ <;>
        rw [hid]
      · simpa using issuedIds_nodup rest _
      · simpa using issuedIds_nodup rest _
      · simp only [List.singleton_append, List.nodup_cons]
        refine ⟨fun hmem => ?_, issuedIds_nodup rest _⟩
        have := issuedIds_lower_bound rest _ _ hmem
        omega
  | RegistryOp.closeSession id :: rest, st => by
      simp only [issuedIds]
      exact issuedIds_nodup rest _

/-! ### Quit-trace lemmas -/

theorem closeWindowEvents_are_closes : ∀ (ws : List Bool) (k : Nat),
    ∀ e ∈ closeWindowEvents k ws, ∃ i, e = QuitEvent.closeWindow i
  | [], _, e, h => by simp [closeWindowEvents] at h
  | true :: rest, k, e, h => by
      simp only [closeWindowEvents] at h
      exact closeWindowEvents_are_closes rest (k + 1) e h
  | false :: rest, k, e, h => by
      simp only [closeWindowEvents, List.mem_cons] at h
      rcases h with h | h
      · exact ⟨k, h⟩
      · exact closeWindowEvents_are_closes rest (k + 1) e h

theorem closeWindow_mem_closeWindowEvents : ∀ (ws : List Bool) (k i : Nat),
    QuitEvent.closeWindow i ∈ closeWindowEvents k ws
      ↔ (k ≤ i ∧ ws.get? (i - k) = some false)
  | [], k, i => by simp [closeWindowEvents]
  | true :: rest, k, i => by
      rw [show closeWindowEvents k (true :: rest) = closeWindowEvents (k + 1) rest from rfl,
        closeWindow_mem_closeWindowEvents rest (k + 1) i]
      constructor
      · rintro ⟨h1, h2⟩
        refine ⟨by omega, ?_⟩
        rw [show i - k = (i - (k + 1)) + 1 by omega, List.get?_cons_succ]
        exact h2
      · rintro ⟨h1, h2⟩
        by_cases hik : i = k
        · subst hik
          rw [show i - i = 0 by omega, List.get?_cons_zero] at h2
          cases h2
        · refine ⟨by omega, ?_⟩
          rw [show i - k = (i - (k + 1)) + 1 by omega, List.get?_cons_succ] at h2
          exact h2
  | false :: rest, k, i => by
      rw [show closeWindowEvents k (false :: rest)
            = QuitEvent.closeWindow k :: closeWindowEvents (k + 1) rest from rfl]
      rw [List.mem_cons, closeWindow_mem_closeWindowEvents rest (k + 1) i]
      constructor
      · rintro (h | ⟨h1, h2⟩)
        · have hik : i = k := QuitEvent.closeWindow.inj h
          subst hik
          exact ⟨Nat.le_refl i, by rw [show i - i = 0 by omega, List.get?_cons_zero]⟩
        · refine ⟨by omega, ?_⟩
          rw [show i - k = (i - (k + 1)) + 1 by omega, List.get?_cons_succ]
          exact h2
      · rintro ⟨h1, h2⟩
        by_cases hik : i = k
        · subst hik
          left; rfl
        · right
          refine ⟨by omega, ?_⟩
          rw [show i - k = (i - (k + 1)) + 1 by omega, List.get?_cons_succ] at h2
          exact h2

theorem not_closeWindow_not_in_closeEvents (ws : List Bool) (k : Nat) (e : QuitEvent)
    (he : ∀ i, e ≠ QuitEvent.closeWindow i) : e ∉ closeWindowEvents k ws := fun h => by
  rcases closeWindowEvents_are_closes ws k _ h with ⟨i, hi⟩
  exact he i hi

theorem closeOp_not_found (st : ServerState) (id : Nat)
    (h : resolveSession st id = none) :
    closeOp st id = (({ success := false, message := "Session not found" }, false), st) := by
  simp [closeOp, h]

/-! ### Concrete fixtures used by the witness theorems -/

def stW : ServerState :=
  { sessions := [(5, { destroyed := false, currentUrl := "http://localhost:3000" })]
    globalBrowser := true, httpServer := true, nextId := 6 }

def reqW : SerializedFetchRequest := { url := JsonValue.jstr ("http://localhost:3000/echo") }

def envErrW : FetchEnv := { evalOutcome := Except.error ("TypeError: Failed to fetch") }

def outcomeW : RemoteFetchOutcome :=
  { ok := true, status := 200, statusText := "OK", url := "http://localhost:3000/echo"
    redirected := false, type := "basic", headers := [], bodyBytes := [1, 2, 250] }

def reqBodyW : SerializedFetchRequest :=
  { url := JsonValue.jstr ("http://localhost:3000/echo")
    body := some (String.mk (btoaOfBytes [0, 255, 7, 10]))
    bodyEncoding := some base64Lit }

def envOkW : OpenEnv :=
  { connectResult := Except.ok true, getPageResult := Except.ok ()
    loadResult := Except.ok ("") }

def envNavFailW : OpenEnv :=
  { connectResult := Except.ok true, getPageResult := Except.ok ()
    loadResult := Except.error ("net::ERR_NAME_NOT_RESOLVED") }

def navEnvW : NavEnv := { loadResult := Except.ok ("http://localhost:3000/?q=1") }

def opsW : List RegistryOp :=
  [RegistryOp.openSession none envOkW, RegistryOp.openSession none envOkW,
   RegistryOp.closeSession 0]

def memW : MemoryUsage := { rss := 1, heapTotal := 2, heapUsed := 3, external := 4 }

/-! ### Claim theorems -/

/-- C2 counterexample: with an active listener whose close callback never
fires, the quit trace neither schedules the fallback exit timer nor reaches a
forced process termination, because the timer is only set inside the close
callback; the claim that the fallback fires even when the callback never
fires is therefore false of the code. -/
theorem quit_no_fallback_without_close_callback :
    QuitEvent.serverCloseBegin ∈ quitTrace [] false true false false
    ∧ QuitEvent.scheduleExitTimer ∉ quitTrace [] false true false false
    ∧ QuitEvent.processExit ∉ quitTrace [] false true false false := by decide

/-- C2 (amended): quit acknowledges the caller first, then closes exactly the
not-yet-destroyed surfaces, then clears the registry, then releases the
engine connection if present (a throwing release is swallowed and leaves the
trace unchanged), then begins closing the listener; app.quit and the 100ms
exit timer are scheduled inside the listener's close callback, so forced
termination occurs exactly when no listener was active or the callback
fires. -/
theorem quit_ack_then_ordered_teardown (ws : List Bool) (browser server cb thr : Bool) :
    (quitTrace ws browser server cb thr).head? = some QuitEvent.ack
    ∧ (∃ w rest, quitTrace ws browser server cb thr
          = QuitEvent.ack :: (w ++ QuitEvent.clearSessions :: rest)
        ∧ (∀ e ∈ w, ∃ i, e = QuitEvent.closeWindow i)
        ∧ rest = (if browser then [QuitEvent.releaseBrowser] else [])
            ++ (if server then
                  QuitEvent.serverCloseBegin ::
                  (if cb then
                     [QuitEvent.appQuit, QuitEvent.scheduleExitTimer, QuitEvent.processExit]
                   else [])
                else [QuitEvent.appQuit, QuitEvent.scheduleExitTimer, QuitEvent.processExit]))
    ∧ (∀ i, QuitEvent.closeWindow i ∈ quitTrace ws browser server cb thr
          ↔ ws.get? i = some false)
    ∧ (QuitEvent.processExit ∈ quitTrace ws browser server cb thr
          ↔ (server = false ∨ cb = true))
    ∧ quitTrace ws browser server cb thr = quitTrace ws browser server cb true := by
  refine ⟨rfl, ⟨closeWindowEvents 0 ws, _, rfl, closeWindowEvents_are_closes ws 0, rfl⟩,
    ?_, ?_, rfl⟩
  · intro i
    have hmem := closeWindow_mem_closeWindowEvents ws 0 i
    simp only [Nat.sub_zero, Nat.zero_le, true_and] at hmem
    cases browser <;> cases server <;> cases cb <;> simp [quitTrace, hmem]
  · have hnot := not_closeWindow_not_in_closeEvents ws 0 QuitEvent.processExit
      (fun i h => by cases h)
    cases browser <;> cases server <;> cases cb <;> simp [quitTrace, hnot]

/-- C4: close on a registered id reports success, requests a graceful surface
close exactly when the surface is not already destroyed, and removes the id
from the registry unconditionally, so an immediate second close reports
SessionNotFound. -/
theorem close_removes_unconditionally (st : ServerState) (id : Nat) (s : Session)
    (hk : (st.sessions.map Prod.fst).Nodup)
    (hs : resolveSession st id = some s) :
    (closeOp st id).1.1.success = true
    ∧ (closeOp st id).1.2 = !s.destroyed
    ∧ resolveSession (closeOp st id).2 id = none
    ∧ (closeOp (closeOp st id).2 id).1.1.success = false
    ∧ (closeOp (closeOp st id).2 id).1.1.message = "Session not found"
    ∧ (closeOp st id).2.sessions.length + 1 = st.sessions.length := by
  have h2 : (closeOp st id).2.sessions = mapDelete st.sessions id := by
    simp [closeOp, hs]
  have h3 : resolveSession (closeOp st id).2 id = none := by
    rw [resolveSession, h2]
    exact mapGet_mapDelete_self _ _ hk
  refine ⟨by simp [closeOp, hs], by simp [closeOp, hs], h3,
    by rw [closeOp_not_found _ _ h3], by rw [closeOp_not_found _ _ h3], ?_⟩
  rw [h2]
  exact mapDelete_length _ _ _ hs

/-- C4 witness: closing the one registered session of the fixture state
succeeds, removes it, and a second close reports SessionNotFound. -/
theorem close_removes_unconditionally_witness :
    (closeOp stW 5).1.1.success = true
    ∧ (closeOp stW 5).1.2 = !(false : Bool)
    ∧ resolveSession (closeOp stW 5).2 5 = none
    ∧ (closeOp (closeOp stW 5).2 5).1.1.success = false
    ∧ (closeOp (closeOp stW 5).2 5).1.1.message = "Session not found"
    ∧ (closeOp stW 5).2.sessions.length + 1 = stW.sessions.length :=
  close_removes_unconditionally stW 5
    { destroyed := false, currentUrl := "http://localhost:3000" } (by decide) rfl

/-- C8: a successful navigate reports the URL observed on the automation
handle after the load completed — redirects included — and stores it as the
session's current URL; whenever the observed URL differs from the requested
one the requested url is not what is reported. -/
theorem navigate_reports_observed_url (st : ServerState) (id : Nat) (url obs : String)
    (s : Session) (env : NavEnv)
    (hs : resolveSession st id = some s)
    (hl : env.loadResult = Except.ok obs) :
    (navigateOp st id url env).1.success = true
    ∧ (navigateOp st id url env).1.currentUrl = some obs
    ∧ resolveSession (navigateOp st id url env).2 id
        = some { destroyed := s.destroyed, currentUrl := obs }
    ∧ (obs ≠ url → (navigateOp st id url env).1.currentUrl ≠ some url) := by
  refine ⟨by simp [navigateOp, hs, hl], by simp [navigateOp, hs, hl], ?_, ?_⟩
  · simp only [navigateOp, hs, hl]
    exact mapGet_mapSet_self _ _ _
  · intro hne hcu
    simp only [navigateOp, hs, hl, Option.some.injEq] at hcu
    exact hne hcu

/-- C8 witness: navigating the fixture session reports the redirect-observed
URL rather than the requested one. -/
theorem navigate_reports_observed_url_witness :
    (navigateOp stW 5 ("http://localhost:3000/go") navEnvW).1.success = true
    ∧ (navigateOp stW 5 ("http://localhost:3000/go") navEnvW).1.currentUrl
        = some ("http://localhost:3000/?q=1")
    ∧ resolveSession (navigateOp stW 5 ("http://localhost:3000/go") navEnvW).2 5
        = some { destroyed := false, currentUrl := "http://localhost:3000/?q=1" }
    ∧ (("http://localhost:3000/?q=1" : String) ≠ "http://localhost:3000/go" →
        (navigateOp stW 5 ("http://localhost:3000/go") navEnvW).1.currentUrl
          ≠ some ("http://localhost:3000/go")) :=
  navigate_reports_observed_url stW 5 ("http://localhost:3000/go")
    ("http://localhost:3000/?q=1")
    { destroyed := false, currentUrl := "http://localhost:3000" } navEnvW rfl rfl

/-- C1: the fetch bridge never propagates an exception and always returns a
well-formed Fetch Result: an unknown session yields the 404 result, a missing
url the 400 result, an in-environment throw the synthetic 500 result with
ok=false, empty headers, empty bodyBase64 and the failure description in
statusText, and a completed execution the evaluate callback's own result. -/
theorem fetch_bridge_never_throws (st : ServerState) (id : Nat)
    (req : Option SerializedFetchRequest) (env : FetchEnv) :
    (resolveSession st id = none → (fetchRequest st id req env).1 = notFoundFetchResponse)
    ∧ (resolveSession st id ≠ none → req = none →
        (fetchRequest st id req env).1 = badRequestFetchResponse)
    ∧ (∀ r, resolveSession st id ≠ none → req = some r → r.url.falsy = true →
        (fetchRequest st id req env).1 = badRequestFetchResponse)
    ∧ (∀ r e, resolveSession st id ≠ none → req = some r → r.url.falsy = false →
        env.evalOutcome = Except.error e →
        (fetchRequest st id req env).1 = rendererFailedResponse e)
    ∧ (∀ r o, resolveSession st id ≠ none → req = some r → r.url.falsy = false →
        env.evalOutcome = Except.ok o →
        (fetchRequest st id req env).1 = evaluateFetchCallback r o)
    ∧ (∀ e, (rendererFailedResponse e).ok = false ∧ (rendererFailedResponse e).status = 500
        ∧ (rendererFailedResponse e).headers = [] ∧ (rendererFailedResponse e).bodyBase64 = ""
        ∧ (rendererFailedResponse e).statusText = "Renderer fetch failed: " ++ e)
    ∧ notFoundFetchResponse.status = 404 ∧ badRequestFetchResponse.status = 400 := by
  refine ⟨?_, ?_, ?_, ?_, ?_, fun e => ⟨rfl, rfl, rfl, rfl, rfl⟩, rfl, rfl⟩
  · intro h
    simp [fetchRequest, h]
  · intro h hr
    obtain ⟨s, hs⟩ := Option.ne_none_iff_exists'.mp h
    simp [fetchRequest, hs, hr]
  · intro r h hr hf
    obtain ⟨s, hs⟩ := Option.ne_none_iff_exists'.mp h
    simp [fetchRequest, hs, hr, hf]
  · intro r e h hr hf he
    obtain ⟨s, hs⟩ := Option.ne_none_iff_exists'.mp h
    simp [fetchRequest, hs, hr, hf, he]
  · intro r o h hr hf ho
    obtain ⟨s, hs⟩ := Option.ne_none_iff_exists'.mp h
    simp [fetchRequest, hs, hr, hf, ho]

/-- C1 witness: with the fixture session, a valid descriptor and a throwing
in-environment fetch, the bridge returns the synthetic 500 result. -/
theorem fetch_bridge_never_throws_witness :
    (fetchRequest stW 5 (some reqW) envErrW).1
      = rendererFailedResponse ("TypeError: Failed to fetch") :=
  (fetch_bridge_never_throws stW 5 (some reqW) envErrW).2.2.2.1 reqW
    ("TypeError: Failed to fetch") (by decide) rfl (by decide) rfl

/-- C5: fetch validation: an unknown session id yields the SessionNotFound
404 shape, a missing or non-string url yields the BadRequest shape (the
route answers 400, the bridge result carries ok=false and status 400), and
in every case the session state and registry are left untouched. -/
theorem fetch_validation (st : ServerState) (id : Nat)
    (reqBody : Option SerializedFetchRequest) (env : FetchEnv) :
    (resolveSession st id = none →
        (fetchSession st id reqBody env).1.httpStatus = 404
        ∧ (fetchSession st id reqBody env).1.body
            = FetchRouteBody.errorBody false ("Session not found")
        ∧ (fetchSession st id reqBody env).2 = st)
    ∧ (∀ fields, resolveSession st id ≠ none → reqBody = some fields →
        fields.url.isStringVal = false →
        (fetchSession st id reqBody env).1.httpStatus = 400
        ∧ (fetchSession st id reqBody env).1.body
            = FetchRouteBody.errorBody false ("Request body must include url")
        ∧ (fetchSession st id reqBody env).2 = st)
    ∧ (∀ r, resolveSession st id ≠ none → r.url.falsy = true →
        (fetchRequest st id (some r) env).1.ok = false
        ∧ (fetchRequest st id (some r) env).1.status = 400)
    ∧ (∀ r, (fetchRequest st id r env).2 = st) := by
  have huntouched : ∀ r, (fetchRequest st id r env).2 = st := by
    intro r
    rcases hres : resolveSession st id with _ | s
    · simp [fetchRequest, hres]
    · cases r with
      | none => simp [fetchRequest, hres]
      | some rr =>
        rcases hf : rr.url.falsy with _ | _
        · rcases ho : env.evalOutcome with e | o <;> simp [fetchRequest, hres, hf, ho]
        · simp [fetchRequest, hres, hf]
  refine ⟨?_, ?_, ?_, huntouched⟩
  · intro h
    refine ⟨by simp [fetchSession, h], by simp [fetchSession, h], by simp [fetchSession, h]⟩
  · intro fields h hb hsv
    obtain ⟨s, hs⟩ := Option.ne_none_iff_exists'.mp h
    refine ⟨?_, ?_, ?_⟩ <;> simp [fetchSession, hs, hb, hsv]
  · intro r h hf
    obtain ⟨s, hs⟩ := Option.ne_none_iff_exists'.mp h
    constructor <;> simp [fetchRequest, hs, hf, badRequestFetchResponse]

/-- C5 witness: an unknown session id yields the 404 response and leaves the
state untouched. -/
theorem fetch_validation_witness :
    (fetchSession stW 9 (some reqW) envErrW).1.httpStatus = 404
    ∧ (fetchSession stW 9 (some reqW) envErrW).1.body
        = FetchRouteBody.errorBody false ("Session not found")
    ∧ (fetchSession stW 9 (some reqW) envErrW).2 = stW :=
  (fetch_validation stW 9 (some reqW) envErrW).1 (by decide)

/-- C10: the bridge checks session existence before the url, so an unknown
session combined with a missing url yields the SessionNotFound 404 result and
never the BadRequest 400 result; the fetchSession route behaves the same
way. -/
theorem fetch_session_check_precedes_url_check (st : ServerState) (id : Nat)
    (req : Option SerializedFetchRequest) (env : FetchEnv)
    (hs : resolveSession st id = none)
    (_hu : req = none ∨ ∃ r, req = some r ∧ r.url.falsy = true) :
    (fetchRequest st id req env).1.status = 404
    ∧ (fetchRequest st id req env).1.statusText = "Session not found"
    ∧ (fetchRequest st id req env).1 ≠ badRequestFetchResponse
    ∧ (fetchRequest st id req env).1.status ≠ 400
    ∧ (fetchSession st id req env).1.httpStatus = 404 := by
  have h1 : (fetchRequest st id req env).1 = notFoundFetchResponse := by
    simp [fetchRequest, hs]
  refine ⟨by simp [h1, notFoundFetchResponse], by simp [h1, notFoundFetchResponse],
    by rw [h1]; decide, by rw [h1]; decide, by simp [fetchSession, hs]⟩

/-- C10 witness: unknown session and absent request body yield the 404
result, not the 400 result. -/
theorem fetch_session_check_precedes_url_check_witness :
    (fetchRequest stW 9 none envErrW).1.status = 404
    ∧ (fetchRequest stW 9 none envErrW).1.statusText = "Session not found"
    ∧ (fetchRequest stW 9 none envErrW).1 ≠ badRequestFetchResponse
    ∧ (fetchRequest stW 9 none envErrW).1.status ≠ 400
    ∧ (fetchSession stW 9 none envErrW).1.httpStatus = 404 :=
  fetch_session_check_precedes_url_check stW 9 none envErrW (by decide) (Or.inl rfl)

/-- C6: a base64 descriptor body wrapping bytes B is decoded in the session
environment to exactly B before being attached to the outbound request, and
the Fetch Result's bodyBase64 decodes back to exactly the response bytes: the
bridge's atob/charCodeAt decode loop and fromCharCode/btoa encode loop are
mutually inverse on byte sequences. -/
theorem fetch_body_base64_roundtrip (B : List Nat) (hB : ∀ b ∈ B, b < 256)
    (req : SerializedFetchRequest) (outcome : RemoteFetchOutcome)
    (hout : ∀ b ∈ outcome.bodyBytes, b < 256)
    (hbody : req.body = some (String.mk (btoaOfBytes B)))
    (henc : req.bodyEncoding = some base64Lit) :
    decodeRequestBody req = AttachedBody.bytes B
    ∧ atobBytes (String.toList (evaluateFetchCallback req outcome).bodyBase64)
        = outcome.bodyBytes := by
  constructor
  · have hmk : (String.mk (btoaOfBytes B)).toList = btoaOfBytes B := rfl
    simp only [decodeRequestBody, hbody, henc, if_pos trivial, hmk,
      atobBytes_btoaOfBytes B hB]
  · have hmk : (String.mk (btoaOfBytes outcome.bodyBytes)).toList
        = btoaOfBytes outcome.bodyBytes := rfl
    simp only [evaluateFetchCallback, hmk, atobBytes_btoaOfBytes _ hout]

/-- C6 witness: concrete binary bytes survive the round-trip through the
descriptor body and through the result's bodyBase64. -/
theorem fetch_body_base64_roundtrip_witness :
    decodeRequestBody reqBodyW = AttachedBody.bytes [0, 255, 7, 10]
    ∧ atobBytes (String.toList (evaluateFetchCallback reqBodyW outcomeW).bodyBase64)
        = outcomeW.bodyBytes :=
  fetch_body_base64_roundtrip [0, 255, 7, 10] (by decide) reqBodyW outcomeW
    (by decide) rfl rfl

/-- C3: open registers the session before any initial navigation: when the
navigation fails after registration, open reports failure and withholds the
id, yet the freshly generated id (absent beforehand) is registered, the
registry grew by one, and the session can still be closed — it is not cleaned
up automatically. -/
theorem open_registers_before_navigation (st : ServerState) (u e : String) (env : OpenEnv)
    (hg : goodKeys st)
    (hc : (if st.globalBrowser then Except.ok true else env.connectResult) = Except.ok true)
    (hp : env.getPageResult = Except.ok ())
    (hl : env.loadResult = Except.error e) :
    (openOp st (some u) env).1.success = false
    ∧ (openOp st (some u) env).1.id = none
    ∧ resolveSession st st.nextId = none
    ∧ resolveSession (openOp st (some u) env).2 st.nextId
        = some { destroyed := false, currentUrl := "" }
    ∧ (openOp st (some u) env).2.sessions.length = st.sessions.length + 1
    ∧ (closeOp (openOp st (some u) env).2 st.nextId).1.1.success = true := by
  have habs : mapGet st.sessions st.nextId = none :=
    (mapGet_eq_none_iff _ _).mpr (fun hm => absurd (hg.2 _ hm) (Nat.lt_irrefl _))
  have hsess : (openOp st (some u) env).2.sessions
      = mapSet st.sessions st.nextId { destroyed := false, currentUrl := "" } := by
    simp [openOp, hc, hp, hl]
  have hreg : resolveSession (openOp st (some u) env).2 st.nextId
      = some { destroyed := false, currentUrl := "" } := by
    rw [resolveSession, hsess]
    exact mapGet_mapSet_self _ _ _
  refine ⟨by simp [openOp, hc, hp, hl], by simp [openOp, hc, hp, hl], habs, hreg,
    by rw [hsess]; exact mapSet_length_absent _ _ _ habs, by simp [closeOp, hreg]⟩

/-- C3 witness: opening on the fixture state with a failing initial
navigation reports failure but leaves the new session registered and
closable. -/
theorem open_registers_before_navigation_witness :
    (openOp stW (some ("http://bad.invalid")) envNavFailW).1.success = false
    ∧ (openOp stW (some ("http://bad.invalid")) envNavFailW).1.id = none
    ∧ resolveSession stW stW.nextId = none
    ∧ resolveSession (openOp stW (some ("http://bad.invalid")) envNavFailW).2 stW.nextId
        = some { destroyed := false, currentUrl := "" }
    ∧ (openOp stW (some ("http://bad.invalid")) envNavFailW).2.sessions.length
        = stW.sessions.length + 1
    ∧ (closeOp (openOp stW (some ("http://bad.invalid")) envNavFailW).2
        stW.nextId).1.1.success = true :=
  open_registers_before_navigation stW ("http://bad.invalid")
    ("net::ERR_NAME_NOT_RESOLVED") envNavFailW ⟨by decide, by decide⟩ rfl rfl rfl

/-- C7: status reports sessions.active equal to the registry's live entry
count at the instant of the call, and after a run of N successful opens and M
successful closes with no other mutations it reports N - M, with M ≤ N. -/
theorem status_reports_active_count (ops : List RegistryOp)
    (hall : allSucceed initialState ops = true)
    (uptime : Nat) (mem : MemoryUsage) (ts : String) :
    (statusOp (runOps initialState ops) uptime mem ts).sessionsActive
        = (runOps initialState ops).sessions.length
    ∧ (successCount initialState ops).2 ≤ (successCount initialState ops).1
    ∧ (statusOp (runOps initialState ops) uptime mem ts).sessionsActive
        = (successCount initialState ops).1 - (successCount initialState ops).2 := by
  have hg : goodKeys initialState :=
    ⟨List.nodup_nil, by intro k hk; simp [initialState] at hk⟩
  have hinv := run_length_invariant ops initialState hg hall
  have h0 : initialState.sessions.length = 0 := rfl
  refine ⟨rfl, by omega, by simp only [statusOp]; omega⟩

/-- C7 witness: after two successful opens and one successful close the
status payload reports one active session. -/
theorem status_reports_active_count_witness :
    (statusOp (runOps initialState opsW) 7 memW ("2026-01-01T00:00:00.000Z")).sessionsActive
        = (runOps initialState opsW).sessions.length
    ∧ (successCount initialState opsW).2 ≤ (successCount initialState opsW).1
    ∧ (statusOp (runOps initialState opsW) 7 memW
        ("2026-01-01T00:00:00.000Z")).sessionsActive
        = (successCount initialState opsW).1 - (successCount initialState opsW).2 :=
  status_reports_active_count opsW (by decide) 7 memW ("2026-01-01T00:00:00.000Z")

/-- C9: session ids issued by opens over any run are pairwise distinct, the
registry keys remain pairwise distinct (each id names at most one live
session), and navigating one session leaves every other session's registry
entry — including its observed URL — untouched. -/
theorem sessions_independent (ops : List RegistryOp) (st : ServerState) (a b : Nat)
    (url : String) (env : NavEnv) (hab : a ≠ b) :
    (issuedIds initialState ops).Nodup
    ∧ goodKeys (runOps initialState ops)
    ∧ resolveSession (navigateOp st a url env).2 b = resolveSession st b := by
  have hg : goodKeys initialState :=
    ⟨List.nodup_nil, by intro k hk; simp [initialState] at hk⟩
  refine ⟨issuedIds_nodup ops initialState, runOps_preserves_goodKeys ops initialState hg, ?_⟩
  rcases hres : resolveSession st a with _ | s
  · simp [navigateOp, hres]
  · rcases hl : env.loadResult with e | obs
    · simp [navigateOp, hres, hl]
    · simp only [navigateOp, hres, hl]
      exact mapGet_mapSet_ne st.sessions a b _ hab

/-- C9 witness: navigating an unrelated id leaves the fixture session's
registry entry unchanged, and the fixture run issues distinct ids. -/
theorem sessions_independent_witness :
    (issuedIds initialState opsW).Nodup
    ∧ goodKeys (runOps initialState opsW)
    ∧ resolveSession (navigateOp stW 0 ("http://a.example") navEnvW).2 5
        = resolveSession stW 5 :=
  sessions_independent opsW stW 0 5 ("http://a.example") navEnvW (by decide)

/-- C2 witness: on a concrete state with one live window, an active browser
connection and a listener whose callback never fires, the trace is
acknowledged first and reaches no forced termination. -/
theorem quit_ack_then_ordered_teardown_witness :
    (quitTrace [false] true true false false).head? = some QuitEvent.ack
    ∧ (QuitEvent.processExit ∈ quitTrace [false] true true false false
        ↔ ((true : Bool) = false ∨ (false : Bool) = true)) :=
  ⟨(quit_ack_then_ordered_teardown [false] true true false false).1,
   (quit_ack_then_ordered_teardown [false] true true false false).2.2.2.1⟩
